import Mathlib

/-!
Verification of the orb policy-gated data-access gateway.

Shallow embedding of the core services (permission evaluator, query router,
token service, cache-aside user store, user-management operations) as pure
Lean functions over explicit store/cache states, together with theorems
settling the specification claims.

Conventions:
* Python dictionaries are association lists (`List (String × _)`); `dict.get`
  is `List.lookup`.
* Python exceptions become `Except OrbErr`; the exception class hierarchy is
  flattened into the `OrbErr` constructors, with kind predicates recovering
  the subclass relations (e.g. `ExplicitDenyError < AuthorizationError`).
* MongoDB collections are lists of documents; Redis hashes are association
  lists keyed by user id.
* bcrypt hashing and HMAC signing are external primitives, modelled as
  injective functions (ideal hash / ideal MAC).
-/

namespace Orb

/-- A permission grant value as stored in a user document / token payload:
either a string literal (the code compares against "none" and "all"),
a mapping from database name to a list of collection names, or a boolean
(used by the user_management axis). -/
inductive GrantVal where
  | str (s : String)
  | map (m : List (String × List String))
  | boolVal (b : Bool)
deriving Repr, DecidableEq

/-- Python truthiness of a grant value: empty string, empty dict and False
are falsy. -/
def GrantVal.truthy : GrantVal → Bool
  | .str s => s ≠ ""
  | .map m => !m.isEmpty
  | .boolVal b => b

/-- The flattened error taxonomy of `services/exceptions.py` plus Python
built-in `ValueError` (raised by the router for validation failures) and
an escaping Redis client error (not part of the Orb hierarchy). -/
inductive OrbErr where
  | databaseError (msg : String)
  | documentNotFoundError (msg : String)
  | duplicateUserError (msg : String)
  | policyNotFoundError (msg : String)
  | authenticationError (msg : String)
  | authorizationError (msg : String)
  | explicitDenyError (msg : String)
  | valueError (msg : String)
  | redisError (msg : String)
deriving Repr, DecidableEq

/-- Kind test `isinstance(e, AuthorizationError)`: `ExplicitDenyError` is a subclass. -/
def OrbErr.isAuthorizationKind : OrbErr → Bool
  | .authorizationError _ => true
  | .explicitDenyError _ => true
  | _ => false

/-- Kind test `isinstance(e, ValueError)` — the validation-error kind. -/
def OrbErr.isValidationKind : OrbErr → Bool
  | .valueError _ => true
  | _ => false

/-- Kind test `isinstance(e, DocumentNotFoundError)` — the NotFound kind. -/
def OrbErr.isNotFoundKind : OrbErr → Bool
  | .documentNotFoundError _ => true
  | _ => false

/-- Kind test `isinstance(e, AuthenticationError)`. -/
def OrbErr.isAuthenticationKind : OrbErr → Bool
  | .authenticationError _ => true
  | _ => false

/-- Whether an operation result failed with a validation-kind error. -/
def failsValidation {α : Type} : Except OrbErr α → Bool
  | .error e => e.isValidationKind
  | .ok _ => false

/-- Whether an operation result failed with an authorization-kind error. -/
def failsAuthorization {α : Type} : Except OrbErr α → Bool
  | .error e => e.isAuthorizationKind
  | .ok _ => false

/-! ## Query router static tables (`services/query_router.py`) -/

/-- The list `QueryRouter._user_op_names`. -/
def user_op_names : List String := ["create_user", "update_user", "delete_user"]

/-- The "read" row of `op_type_map` in `QueryRouter._validate_auth`. -/
def read_ops : List String := ["find_one", "find", "count_documents"]

/-- The "write" row of `op_type_map` in `QueryRouter._validate_auth`. -/
def write_ops : List String :=
  ["insert_one", "insert_many", "update_one", "update_many", "delete_one", "delete_many"]

/-- The keys of `QueryRouter._data_op_map` (read ops then write ops). -/
def data_op_names : List String := read_ops ++ write_ops

/-- The first key of `op_type_map` whose operation list contains `op_name`
(the loop over `op_type_map.items()` in `_validate_auth`). -/
def opTypeOf (op_name : String) : Option String :=
  if read_ops.contains op_name then some "read"
  else if write_ops.contains op_name then some "write"
  else if user_op_names.contains op_name then some "user_management"
  else none

/-- The slice of the decoded-token claims that `_validate_auth` reads:
`user_info.get("permissions")`. `none` models an absent key, and
`some []` an empty permissions dict (both falsy in Python). -/
structure UserInfo where
  permissions : Option (List (String × GrantVal))
deriving Repr, DecidableEq

/-- Python truthiness of `user_info.get("permissions")`. -/
def UserInfo.permsTruthy (u : UserInfo) : Bool :=
  match u.permissions with
  | none => false
  | some l => !l.isEmpty

/-- Embeds `QueryRouter._validate_auth(op_name, db, coll, user_info)`: classifies
the operation into a category and evaluates the caller grants, raising
`AuthorizationError` / `ExplicitDenyError` on denial. -/
def validate_auth (op_name db coll : String) (user_info : UserInfo) :
    Except OrbErr Unit :=
  match opTypeOf op_name with
  | none => .error (.authorizationError ("Operation " ++ op_name ++ " is not valid."))
  | some op_type =>
    if !user_info.permsTruthy then
      .error (.authorizationError "User has no permissions defined.")
    else
      let perms := user_info.permissions.getD []
      let allowed := perms.lookup op_type
      let allowedTruthy := match allowed with
        | some g => g.truthy
        | none => false
      if op_type == "user_management" && allowedTruthy then
        .ok ()
      else if op_type == "read" || op_type == "write" then
        if allowed = some (.str "none") then
          .error (.explicitDenyError ("Access for " ++ op_type ++ " on " ++ db ++ "." ++
            coll ++ " is explicitly denied by policy."))
        else if allowed = some (.str "all") then
          .ok ()
        else
          match allowed with
          | some (.map m) =>
            if ((m.lookup db).getD []).contains coll then .ok ()
            else .error (.authorizationError ("User not authorized for " ++ op_type ++
              " on " ++ db ++ "." ++ coll ++ "."))
          | _ => .error (.authorizationError ("User not authorized for " ++ op_type ++
              " on " ++ db ++ "." ++ coll ++ "."))
      else
        .error (.authorizationError ("User not authorized for " ++ op_type ++
          " on " ++ db ++ "." ++ coll ++ "."))

/-! ## Store and cache states

A document of the `userdb.users` collection. `oid` is the string form of
the BSON ObjectId `_id`. The three grant axes are optional fields of the
document (absent = deny-by-default). The collection is a list of
documents; a unique index on `user_id` is assumed for duplicate
detection on insert. -/
structure UserDoc where
  oid : String
  user_id : String
  api_key_hash : String
  role : String
  metadata : List (String × String)
  read : Option GrantVal
  write : Option GrantVal
  user_management : Option Bool
deriving Repr, DecidableEq

/-- Lookup `find_one({"user_id": uid})`: first matching document. -/
def findByUserId (users : List UserDoc) (uid : String) : Option UserDoc :=
  users.find? (fun d => d.user_id == uid)

/-- Lookup `find_one({"_id": ObjectId(oid)})`: first matching document. -/
def findByOid (users : List UserDoc) (oid : String) : Option UserDoc :=
  users.find? (fun d => d.oid == oid)

/-- The projection `{"_id": 0, "read": 1, "write": 1, "user_management": 1}`
of a user document: a dict holding exactly the grant fields present. -/
def permsOf (d : UserDoc) : List (String × GrantVal) :=
  (match d.read with | some g => [("read", g)] | none => []) ++
  (match d.write with | some g => [("write", g)] | none => []) ++
  (match d.user_management with
   | some b => [("user_management", GrantVal.boolVal b)]
   | none => [])

/-- A Redis hash entry for a user id (the denormalized cache projection).
`api_key_hash` mirrors `raw_data.get(b'api_key_hash')` with no default
(absent stays absent); the other fields default to the empty string on
read, so they are plain strings here. -/
structure CacheEntry where
  api_key_hash : Option String
  role_id : String
  role : String
  name : String
  dept : String
deriving Repr, DecidableEq

/-- The Redis keyspace: user id to hash entry. -/
def Cache : Type := List (String × CacheEntry)

/-- Embeds `redis.hset(uid, mapping=...)`: write the whole entry for a key. -/
def hsetUser (cache : Cache) (uid : String) (e : CacheEntry) : Cache :=
  (uid, e) :: List.filter (fun kv => kv.1 ≠ uid) cache

/-- Embeds `redis.delete(uid)`. -/
def cacheDelete (cache : Cache) (uid : String) : Cache :=
  List.filter (fun kv => kv.1 ≠ uid) cache

/-- Embeds `redis.exists(uid)` / `hgetall(uid)` combined. -/
def cacheGet (cache : Cache) (uid : String) : Option CacheEntry :=
  List.lookup uid cache

/-! ## Key Verifier (`services/utils.py`), bcrypt modelled as an ideal
injective hash -/

/-- Model of `bcrypt.hashpw` (external library): an injective tagging of
the plaintext. -/
def hashKey (plain : String) : String := "bcrypt$" ++ plain

/-- Embeds `verify_key(plain, hashed)` = `bcrypt.checkpw`: the hash of the
plaintext matches the stored hash. -/
def verify_key (plain : String) (hashed : String) : Bool :=
  hashKey plain == hashed

/-! ## Token Service (`services/authn.py`), PyJWT modelled as an ideal MAC -/

/-- The JWT payload built by `Auth._create_jwt`. -/
structure Claims where
  user_id : String
  role : String
  name : String
  dept : String
  permissions : List (String × GrantVal)
  exp : Nat
deriving Repr, DecidableEq

/-- A signed JWT: payload plus signature. The HMAC-SHA256 signature is
modelled as the pair of signing secret and signed payload (an ideal MAC:
verification succeeds exactly when the token was produced with the same
secret over the same payload). -/
structure Token where
  payload : Claims
  sig : String × Claims
deriving Repr, DecidableEq

/-- Embeds `jwt.encode(payload, secret, algorithm="HS256")`. -/
def jwtEncode (secret : String) (c : Claims) : Token :=
  ⟨c, (secret, c)⟩

/-- The failures of `jwt.decode`: `ExpiredSignatureError`, or
`InvalidTokenError` (bad signature / malformed). -/
inductive JwtFailure where
  | expiredSignature
  | invalidToken (msg : String)
deriving Repr, DecidableEq

/-- Embeds `jwt.decode(token, secret, algorithms=["HS256"], verify_exp=True)`:
signature is verified first, then the `exp` claim against current time
(token expired once `now` reaches `exp`; leeway 0). -/
def jwtDecode (secret : String) (now : Nat) (t : Token) : Except JwtFailure Claims :=
  if t.sig ≠ (secret, t.payload) then
    .error (.invalidToken "Signature verification failed")
  else if t.payload.exp ≤ now then
    .error .expiredSignature
  else
    .ok t.payload

/-- Embeds `Auth.authorize_user(jwt_token)`: validates a JWT and returns the
payload, translating decode failures into `AuthenticationError` with
distinct reasons. -/
def authorize_user (serverSecret : String) (now : Nat) (jwt_token : Token) :
    Except OrbErr Claims :=
  if serverSecret = "" then
    .error (.authenticationError "Server secret is not configured.")
  else
    match jwtDecode serverSecret now jwt_token with
    | .ok payload => .ok payload
    | .error .expiredSignature => .error (.authenticationError "Token has expired.")
    | .error (.invalidToken m) =>
      .error (.authenticationError ("Token is invalid: " ++ m))

/-- The `user_info_for_jwt` dict handed to `_create_jwt` (byte-string
fields decoded). -/
structure UserInfoForJwt where
  role : String
  name : String
  dept : String
deriving Repr, DecidableEq

/-- Embeds `Auth._create_jwt(user_id, user_info, permissions)`: payload expiry is
`now + 2 hours` (7200 seconds). -/
def create_jwt (serverSecret : String) (now : Nat) (user_id : String)
    (user_info : UserInfoForJwt) (permissions : List (String × GrantVal)) :
    Except OrbErr Token :=
  if serverSecret = "" then
    .error (.authenticationError "Server secret is not configured.")
  else
    .ok (jwtEncode serverSecret
      { user_id := user_id, role := user_info.role, name := user_info.name,
        dept := user_info.dept, permissions := permissions, exp := now + 7200 })

/-- The normalized credential projection `user_data` built inside
`authenticate_user` from either tier. -/
structure UserData where
  api_key_hash : Option String
  role_id : String
  role : String
  name : String
  dept : String
deriving Repr, DecidableEq

/-- The credential-resolution step of `authenticate_user` (steps 1-2):
prefer the cache entry, else the durable-store document. -/
def resolveUserData (users : List UserDoc) (cache : Cache) (user_id : String) :
    Option UserData :=
  match cacheGet cache user_id with
  | some e => some ⟨e.api_key_hash, e.role_id, e.role, e.name, e.dept⟩
  | none =>
    match findByUserId users user_id with
    | some d =>
      some ⟨some d.api_key_hash, d.oid, d.role,
        (d.metadata.lookup "name").getD "",
        (d.metadata.lookup "department").getD ""⟩
    | none => none

/-- Steps 1-3 of `authenticate_user`: try the cache, fall back to the
durable store, self-heal the cache on a durable hit. `hsetFails` injects
a Redis client error into the self-heal cache write; such an error is
raised inside a `try` that only catches `PyMongoError`, so it escapes
(modelled as `redisError`). -/
def resolveStep (users : List UserDoc) (cache : Cache) (hsetFails : Bool)
    (user_id : String) : Except OrbErr (UserData × Cache) :=
  match cacheGet cache user_id with
  | some e =>
    .ok (⟨e.api_key_hash, e.role_id, e.role, e.name, e.dept⟩, cache)
  | none =>
    match findByUserId users user_id with
    | none => .error (.authenticationError ("User " ++ user_id ++ " not found."))
    | some d =>
      let ud : UserData :=
        ⟨some d.api_key_hash, d.oid, d.role,
          (d.metadata.lookup "name").getD "",
          (d.metadata.lookup "department").getD ""⟩
      if hsetFails then .error (.redisError "cache write failed")
      else .ok (ud, hsetUser cache user_id
        ⟨some d.api_key_hash, d.oid, d.role, ud.name, ud.dept⟩)

/-- Embeds `Auth.authenticate_user(user_id, api_key)` over explicit store/cache
states. Returns the result and the final cache state (the durable store
is only read). -/
def authenticate_user (users : List UserDoc) (cache : Cache) (hsetFails : Bool)
    (secret : String) (now : Nat) (user_id api_key : String) :
    Except OrbErr Token × Cache :=
  if api_key = "" then
    (.error (.authenticationError "API key was not provided."), cache)
  else
    match resolveStep users cache hsetFails user_id with
    | .error e => (.error e, cache)
    | .ok (ud, cache2) =>
      if ud.api_key_hash.getD "" = "" then
        (.error (.authenticationError
          ("User " ++ user_id ++ " has corrupted data (missing key hash).")), cache2)
      else if !verify_key api_key (ud.api_key_hash.getD "") then
        (.error (.authenticationError "Invalid API key provided."), cache2)
      else if ud.role_id = "" then
        (.error (.authenticationError
          ("User " ++ user_id ++ " has no role ID assigned.")), cache2)
      else
        match findByOid users ud.role_id with
        | none =>
          (.error (.authenticationError
            ("Could not find permissions for user " ++ user_id ++ ".")), cache2)
        | some d =>
          if (permsOf d).isEmpty then
            (.error (.authenticationError
              ("Could not find permissions for user " ++ user_id ++ ".")), cache2)
          else
            match create_jwt secret now user_id ⟨ud.role, ud.name, ud.dept⟩
                (permsOf d) with
            | .error e => (.error e, cache2)
            | .ok tok => (.ok tok, cache2)

/-! ## User-management operations (`services/operations.py`) -/

/-- The caller-supplied `perm` / `permissions` dict: optional `read` and
`write` keys. (A key bound to Python `None` behaves like an absent key
in the code paths modelled here.) -/
structure PermArg where
  read : Option GrantVal
  write : Option GrantVal
deriving Repr, DecidableEq

/-- Embeds `Mongo.create_user(user_id, policy, metadata, perm)` over explicit
states. `policyStore` is the set of policy names in
`userdb.policy_store`; `freshOid` and `freshKey` stand for the generated
ObjectId and `secrets.token_urlsafe(32)` key. `hsetFails` injects a
Redis error into the cache write; the code catches it with a blanket
`except Exception` and re-raises `DatabaseError`. Returns the result and
the final store/cache states. -/
def create_user (policyStore : List String) (users : List UserDoc)
    (cache : Cache) (hsetFails : Bool) (freshOid freshKey : String)
    (user_id policy : String) (metadata : List (String × String))
    (perm : PermArg) : Except OrbErr String × List UserDoc × Cache :=
  if !policyStore.contains policy then
    (.error (.policyNotFoundError ("Policy " ++ policy ++ " not found.")),
      users, cache)
  else
    let api_key_hash := hashKey freshKey
    let doc : UserDoc :=
      if policy == "admin" then
        ⟨freshOid, user_id, api_key_hash, policy, metadata,
          some (.str "all"), some (.str "all"), some true⟩
      else
        ⟨freshOid, user_id, api_key_hash, policy, metadata,
          perm.read, perm.write, some false⟩
    if (findByUserId users user_id).isSome then
      (.error (.duplicateUserError ("User " ++ user_id ++ " already exists.")),
        users, cache)
    else
      let users2 := users ++ [doc]
      if hsetFails then
        (.error (.databaseError
          "An unexpected error occurred during user creation: cache write failed"),
          users2, cache)
      else
        (.ok freshKey, users2, hsetUser cache user_id
          ⟨some api_key_hash, freshOid, doc.role,
            (metadata.lookup "name").getD "",
            (metadata.lookup "department").getD ""⟩)

/-- Embeds `Mongo.delete_user(user_id)`. When `delete_one` deletes zero
documents the code raises `DocumentNotFoundError` inside the `try`
block, where the blanket `except Exception` catches it and re-raises a
generic `DatabaseError` — so the caller-visible failure is
`databaseError`, not the NotFound kind. -/
def delete_user (users : List UserDoc) (cache : Cache) (user_id : String) :
    Except OrbErr Bool × List UserDoc × Cache :=
  match findByUserId users user_id with
  | none =>
    (.error (.databaseError
      ("An unexpected error occurred during user deletion: User " ++ user_id ++
        " not found for deletion.")), users, cache)
  | some _ =>
    (.ok true, users.eraseP (fun d => d.user_id == user_id),
      cacheDelete cache user_id)

/-- The `updates` dict accumulated by `Mongo.update_user` before the
`$set` write. -/
structure UpdateSet where
  role : Option String
  read : Option GrantVal
  write : Option GrantVal
  user_management : Option Bool
deriving Repr, DecidableEq

/-- The update `{"$set": updates}` applied to one document. -/
def applyUpdates (d : UserDoc) (u : UpdateSet) : UserDoc :=
  { d with
    role := u.role.getD d.role,
    read := match u.read with | some g => some g | none => d.read,
    write := match u.write with | some g => some g | none => d.write,
    user_management := match u.user_management with
      | some b => some b
      | none => d.user_management }

/-- Embeds `update_one({"user_id": uid}, {"$set": u})`: updates the first
matching document. (An empty `$set` is applied as a no-op here; the
claims settled below do not depend on whether the store instead rejects
an empty update document, since either way the record is unchanged.) -/
def updateFirst (users : List UserDoc) (uid : String) (u : UpdateSet) :
    List UserDoc :=
  match users with
  | [] => []
  | d :: rest =>
    if d.user_id == uid then applyUpdates d u :: rest
    else d :: updateFirst rest uid u

/-- The `updates` dict built by `Mongo.update_user`: role change with
admin-switch handling, then the truthy read/write overrides. -/
def buildUpdates (old : UserDoc) (policy : String) (permissions : PermArg) :
    UpdateSet :=
  let u1 : UpdateSet :=
    if policy ≠ "" ∧ policy ≠ old.role then
      if policy = "admin" then
        ⟨some policy, some (.str "all"), some (.str "all"), some true⟩
      else if old.role = "admin" then
        ⟨some policy, none, none, some false⟩
      else
        ⟨some policy, none, none, none⟩
    else ⟨none, none, none, none⟩
  let u2 : UpdateSet :=
    match permissions.read with
    | some g => if g.truthy then { u1 with read := some g } else u1
    | none => u1
  match permissions.write with
  | some g => if g.truthy then { u2 with write := some g } else u2
  | none => u2

/-- Embeds `Mongo.update_user(user_id, policy="", permissions={})`: builds the
`updates` dict and applies it with `$set`. Returns the result and the
final store state. -/
def update_user (users : List UserDoc) (user_id policy : String)
    (permissions : PermArg) : Except OrbErr Bool × List UserDoc :=
  match findByUserId users user_id with
  | none =>
    (.error (.documentNotFoundError
      ("User " ++ user_id ++ " not found for update.")), users)
  | some old =>
    if permissions.read = none ∧ permissions.write = none ∧ policy = "" then
      (.ok true, users)
    else
      (.ok true, updateFirst users user_id (buildUpdates old policy permissions))

/-! ## Decision-table view of the evaluator (for claim C1) -/

/-- Evaluation outcomes, distinguishing explicit deny from default deny. -/
inductive Outcome where
  | allow
  | denyDefault
  | denyExplicit
deriving Repr, DecidableEq

/-- Classifies an evaluator result: allow, deny with `AuthorizationError`,
deny with `ExplicitDenyError`; `none` for any other error kind. -/
def outcomeOf : Except OrbErr Unit → Option Outcome
  | .ok _ => some .allow
  | .error (.explicitDenyError _) => some .denyExplicit
  | .error (.authorizationError _) => some .denyDefault
  | .error _ => none

/-- The spec decision table for the read/write axes, as a function of the
target and the grant value alone: absent denies by default, "none" denies
explicitly, "all" allows, a mapping allows iff the database is a key and
the collection is in its list; any other value denies by default. -/
def grantDecision (db coll : String) : Option GrantVal → Outcome
  | none => .denyDefault
  | some (.str s) =>
    if s = "none" then .denyExplicit
    else if s = "all" then .allow
    else .denyDefault
  | some (.map m) =>
    if ((m.lookup db).getD []).contains coll then .allow else .denyDefault
  | some (.boolVal _) => .denyDefault

/-! ## `QueryRouter.route_query` -/

/-- The slice of the request payload that `route_query` reads. `none`
models an absent key; for `info`, Python also treats an empty dict as
falsy, so `none` stands for absent-or-falsy while `some` is a truthy
claims dict. -/
structure Payload where
  op : Option String
  info : Option UserInfo
  db : Option String
  coll : Option String
deriving Repr

/-- Which `Mongo` instance the router dispatches to. -/
inductive ClientSel where
  | userOps
  | dataOps
deriving Repr, DecidableEq

/-- The dispatch decision `route_query` hands to the operations layer:
selected client, operation name and injected db/coll. -/
structure Dispatch where
  sel : ClientSel
  op : String
  db : String
  coll : String
deriving Repr, DecidableEq

/-- Python truthiness of an optional string (absent and empty are falsy). -/
def strTruthy : Option String → Bool
  | none => false
  | some s => s ≠ ""

/-- Embeds `QueryRouter.route_query(request, payload)` up to dispatch: validates
the payload shape, authorizes, and returns the dispatch decision (the
actual store call is outside the router). -/
def route_query (p : Payload) : Except OrbErr Dispatch :=
  if !strTruthy p.op then
    .error (.valueError "Operation op not specified in payload.")
  else
    let op_name := p.op.getD ""
    match p.info with
    | none => .error (.valueError "User info must be provided for authorization.")
    | some user_info =>
      if user_op_names.contains op_name then
        match validate_auth op_name "userdb" "users" user_info with
        | .error e => .error e
        | .ok _ => .ok ⟨.userOps, op_name, "userdb", "users"⟩
      else if data_op_names.contains op_name then
        if !strTruthy p.db || !strTruthy p.coll then
          .error (.valueError "Database and collection must be specified for data operations.")
        else
          match validate_auth op_name (p.db.getD "") (p.coll.getD "") user_info with
          | .error e => .error e
          | .ok _ => .ok ⟨.dataOps, op_name, p.db.getD "", p.coll.getD ""⟩
      else
        .error (.valueError ("Operation " ++ op_name ++ " is not supported."))

/-- C1: for a read/write operation category, `_validate_auth` is a pure
function of category, target db/coll and the looked-up grant value, and
follows the decision table: absent grant denies with `AuthorizationError`,
"none" denies with `ExplicitDenyError` regardless of db and coll, "all"
allows, and a mapping allows iff db is a key and coll is in its list. -/
theorem C1_decision_table (op_name cat db coll : String)
    (perms : List (String × GrantVal))
    (hcat : opTypeOf op_name = some cat)
    (hrw : cat = "read" ∨ cat = "write") :
    outcomeOf (validate_auth op_name db coll ⟨some perms⟩) =
      some (grantDecision db coll (perms.lookup cat)) := by
  have hum : (cat == "user_management") = false := by
    rcases hrw with h | h <;> subst h <;> rfl
  have hor : (cat == "read" || cat == "write") = true := by
    rcases hrw with h | h <;> subst h <;> rfl
  unfold validate_auth
  rw [hcat]
  simp only [UserInfo.permsTruthy, Option.getD_some]
  by_cases hnil : perms.isEmpty
  · have hperm : perms = [] := List.isEmpty_iff.mp hnil
    subst hperm
    simp [outcomeOf, grantDecision]
  · simp only [hnil, Bool.not_false, Bool.not_true, if_false, hum, Bool.false_and,
      hor, if_true]
    cases hal : perms.lookup cat with
    | none => simp [outcomeOf, grantDecision]
    | some g =>
      cases g with
      | str s =>
        by_cases hs : s = "none"
        · subst hs; simp [outcomeOf, grantDecision]
        · by_cases ha : s = "all"
          · subst ha; simp [outcomeOf, grantDecision]
          · simp [outcomeOf, grantDecision, hs, ha]
      | map m =>
        by_cases hc : coll ∈ (m.lookup db).getD []
        · simp [outcomeOf, grantDecision, hc]
        · simp [outcomeOf, grantDecision, hc]
      | boolVal b => simp [outcomeOf, grantDecision]

/-- Witness for C1 at a concrete input: `find` classifies as read, and the
grant `{read: {sales: [orders]}}` allows `(sales, orders)`. -/
theorem C1_decision_table_witness :
    (opTypeOf "find" = some "read" ∧ ("read" = "read" ∨ "read" = "write")) ∧
    outcomeOf (validate_auth "find" "sales" "orders"
        ⟨some [("read", .map [("sales", ["orders"])])]⟩) =
      some (grantDecision "sales" "orders"
        ([("read", GrantVal.map [("sales", ["orders"])])].lookup "read")) :=
  ⟨⟨rfl, Or.inl rfl⟩,
    C1_decision_table "find" "read" "sales" "orders"
      [("read", GrantVal.map [("sales", ["orders"])])] rfl (Or.inl rfl)⟩

/-- Counterexample for C6 as stated: on an operation name mapping to no
known category, `_validate_auth` raises `AuthorizationError` — an
authorization-kind failure, not a validation-kind one. -/
theorem C6_counterexample :
    validate_auth "frobnicate" "sales" "orders" ⟨some [("read", .str "all")]⟩ =
      .error (.authorizationError "Operation frobnicate is not valid.") ∧
    failsValidation (validate_auth "frobnicate" "sales" "orders"
      ⟨some [("read", .str "all")]⟩) = false ∧
    failsAuthorization (validate_auth "frobnicate" "sales" "orders"
      ⟨some [("read", .str "all")]⟩) = true :=
  ⟨rfl, rfl, rfl⟩

/-- C6 amended: when the operation name maps to no known operation
category, the evaluator fails with an `AuthorizationError` stating the
operation is not valid (not with a validation error). -/
theorem C6_unknown_op_is_authorization_error (op_name db coll : String)
    (info : UserInfo) (h : opTypeOf op_name = none) :
    validate_auth op_name db coll info =
      .error (.authorizationError ("Operation " ++ op_name ++ " is not valid.")) := by
  unfold validate_auth
  rw [h]

/-- Witness for the amended C6 at the concrete unknown operation name. -/
theorem C6_unknown_op_witness :
    opTypeOf "frobnicate" = none ∧
    validate_auth "frobnicate" "d" "c" ⟨none⟩ =
      .error (.authorizationError "Operation frobnicate is not valid.") :=
  ⟨rfl, C6_unknown_op_is_authorization_error "frobnicate" "d" "c" ⟨none⟩ rfl⟩

/-- C8: the router rejects with a validation error (before any
authorization check or dispatch) every request whose operation name is
empty/absent, every request with an unrecognized operation name, and
every generic data operation lacking a target db or coll — in each case
for every caller-claims value; and user-management operations are
evaluated against the fixed identity store `userdb.users`. -/
theorem C8_router_validation :
    (∀ p : Payload, (p.op = none ∨ p.op = some "") →
      failsValidation (route_query p) = true) ∧
    (∀ (p : Payload) (op : String), p.op = some op →
      op ∉ user_op_names → op ∉ data_op_names →
      failsValidation (route_query p) = true) ∧
    (∀ (p : Payload) (op : String), p.op = some op →
      op ∈ data_op_names →
      (strTruthy p.db = false ∨ strTruthy p.coll = false) →
      failsValidation (route_query p) = true) ∧
    (∀ (p : Payload) (op : String) (info : UserInfo), p.op = some op →
      p.info = some info → op ∈ user_op_names →
      route_query p = (validate_auth op "userdb" "users" info).map
        (fun _ => ⟨.userOps, op, "userdb", "users"⟩)) := by
  refine ⟨?_, ?_, ?_, ?_⟩
  · intro p hop
    rcases hop with h | h <;>
      simp [route_query, h, strTruthy, failsValidation, OrbErr.isValidationKind]
  · intro p op hop hu hd
    rcases ne_or_eq op "" with hne | hne
    · cases hinfo : p.info with
      | none =>
        simp [route_query, hop, hinfo, strTruthy, hne, failsValidation,
          OrbErr.isValidationKind]
      | some info =>
        simp [route_query, hop, hinfo, strTruthy, hne, hu, hd, failsValidation,
          OrbErr.isValidationKind]
    · subst hne
      simp [route_query, hop, strTruthy, failsValidation, OrbErr.isValidationKind]
  · intro p op hop hd htgt
    simp only [data_op_names, read_ops, write_ops, List.append_eq, List.cons_append,
      List.nil_append] at hd
    have hne : op ≠ "" := by fin_cases hd <;> decide
    have hu : op ∉ user_op_names := by fin_cases hd <;> decide
    have hd2 : op ∈ data_op_names := by
      simp only [data_op_names, read_ops, write_ops, List.append_eq, List.cons_append,
        List.nil_append]
      exact hd
    cases hinfo : p.info with
    | none =>
      simp [route_query, hop, hinfo, strTruthy, hne, failsValidation,
        OrbErr.isValidationKind]
    | some info =>
      cases hdb : p.db with
      | none =>
        simp [route_query, hop, hinfo, strTruthy, hne, hu, hd2, hdb,
          failsValidation, OrbErr.isValidationKind]
      | some d =>
        cases hcoll : p.coll with
        | none =>
          simp [route_query, hop, hinfo, strTruthy, hne, hu, hd2, hdb, hcoll,
            failsValidation, OrbErr.isValidationKind]
        | some c =>
          rw [hdb, hcoll] at htgt
          rcases htgt with h | h
          · have h0 : d = "" := by simpa [strTruthy] using h
            subst h0
            simp +decide [route_query, hop, hinfo, strTruthy, hne, hu, hd2, hdb,
              hcoll, failsValidation, OrbErr.isValidationKind]
          · have h0 : c = "" := by simpa [strTruthy] using h
            subst h0
            simp +decide [route_query, hop, hinfo, strTruthy, hne, hu, hd2, hdb,
              hcoll, failsValidation, OrbErr.isValidationKind]
  · intro p op info hop hinfo hu
    fin_cases hu <;>
    · simp only [route_query, hop, hinfo]
      cases hva : validate_auth _ "userdb" "users" info <;>
        simp only [Option.getD_some] at hva <;>
        simp +decide [strTruthy, hva, Except.map]

/-- Witness for C8 at concrete payloads: absent op; unknown op; data op
with missing db; user-management op dispatched against `userdb.users`. -/
theorem C8_router_validation_witness :
    failsValidation (route_query ⟨none, some ⟨none⟩, none, none⟩) = true ∧
    failsValidation (route_query
      ⟨some "frobnicate", some ⟨none⟩, some "d", some "c"⟩) = true ∧
    failsValidation (route_query
      ⟨some "find", some ⟨some [("read", .str "all")]⟩, none, some "c"⟩) = true ∧
    route_query ⟨some "delete_user",
        some ⟨some [("user_management", .boolVal true)]⟩, none, none⟩ =
      (validate_auth "delete_user" "userdb" "users"
          ⟨some [("user_management", .boolVal true)]⟩).map
        (fun _ => ⟨.userOps, "delete_user", "userdb", "users"⟩) :=
  ⟨C8_router_validation.1 _ (Or.inl rfl),
   C8_router_validation.2.1 _ "frobnicate" rfl (by decide) (by decide),
   C8_router_validation.2.2.1 _ "find" rfl (by decide) (Or.inl rfl),
   C8_router_validation.2.2.2 _ "delete_user" _ rfl rfl (by decide)⟩

/-- C9: with an empty api_key, `authenticate_user` fails immediately with
an `AuthenticationError`, uniformly in the cache and durable-store
states (the result is the same constant for every state, so no tier is
consulted). -/
theorem C9_empty_api_key_rejected (users : List UserDoc) (cache : Cache)
    (hsetFails : Bool) (secret : String) (now : Nat) (user_id api_key : String)
    (h : api_key = "") :
    authenticate_user users cache hsetFails secret now user_id api_key =
      (.error (.authenticationError "API key was not provided."), cache) := by
  subst h
  simp [authenticate_user]

/-- Witness for C9 at a concrete state: empty key, populated tiers. -/
theorem C9_empty_api_key_witness :
    ("" : String) = "" ∧
    authenticate_user
        [⟨"o1", "bob", hashKey "k", "analyst", [], some (.str "all"), none,
          some false⟩]
        [("bob", ⟨some (hashKey "k"), "o1", "analyst", "", ""⟩)]
        false "s" 0 "bob" "" =
      (.error (.authenticationError "API key was not provided."),
       [("bob", ⟨some (hashKey "k"), "o1", "analyst", "", ""⟩)]) :=
  ⟨rfl, C9_empty_api_key_rejected _ _ false "s" 0 "bob" "" rfl⟩

/-- C5 (code evaluation at the failing input): `delete_user("bob")` with
no such user leaves the store and the cache unchanged, but the
caller-visible failure is a generic `DatabaseError` — the
`DocumentNotFoundError` raised for a zero delete count is swallowed by
the blanket `except Exception` and re-wrapped — so the NotFound kind
required by the claim is not surfaced. -/
theorem C5_delete_missing_user_eval :
    delete_user [] [("bob", ⟨some "h", "r", "analyst", "Bob", "sales"⟩)] "bob" =
      (.error (.databaseError
        ("An unexpected error occurred during user deletion: User bob" ++
          " not found for deletion.")),
       [], [("bob", ⟨some "h", "r", "analyst", "Bob", "sales"⟩)]) ∧
    (match (delete_user [] [("bob", ⟨some "h", "r", "analyst", "Bob", "sales"⟩)]
        "bob").1 with
     | .error e => e.isNotFoundKind
     | .ok _ => false) = false :=
  ⟨rfl, rfl⟩

/-- C7: `create_user` with policy "admin" stores grants
`{read: "all", write: "all", user_management: true}` ignoring the
caller-supplied perm; any other known policy stores
`user_management: false` and exactly the read/write axes supplied in
perm (omitted axes stay unset). -/
theorem C7_create_user_policy_grants
    (policyStore : List String) (users : List UserDoc) (cache : Cache)
    (freshOid freshKey user_id policy : String)
    (metadata : List (String × String)) (perm : PermArg)
    (hpol : policyStore.contains policy = true)
    (hdup : findByUserId users user_id = none) :
    create_user policyStore users cache false freshOid freshKey user_id policy
        metadata perm =
      (.ok freshKey,
       users ++ [⟨freshOid, user_id, hashKey freshKey, policy, metadata,
         (if policy = "admin" then some (.str "all") else perm.read),
         (if policy = "admin" then some (.str "all") else perm.write),
         (if policy = "admin" then some true else some false)⟩],
       hsetUser cache user_id
         ⟨some (hashKey freshKey), freshOid, policy,
           (metadata.lookup "name").getD "",
           (metadata.lookup "department").getD ""⟩) := by
  have hmem : policy ∈ policyStore := by simpa using hpol
  by_cases ha : policy = "admin"
  · subst ha
    simp [create_user, hmem, hdup]
  · simp [create_user, hmem, hdup, ha]

/-- Witness for C7: the admin override at a concrete call that supplies
a non-trivial perm, which is ignored. -/
theorem C7_create_user_witness :
    (["admin"].contains "admin" = true ∧ findByUserId [] "root" = none) ∧
    create_user ["admin"] [] [] false "o9" "k9" "root" "admin"
        [("name", "Root")] ⟨some (.map [("db", ["x"])]), none⟩ =
      (.ok "k9",
       [⟨"o9", "root", hashKey "k9", "admin", [("name", "Root")],
         some (.str "all"), some (.str "all"), some true⟩],
       hsetUser [] "root" ⟨some (hashKey "k9"), "o9", "admin", "Root", ""⟩) :=
  ⟨⟨rfl, rfl⟩, by
    have h := C7_create_user_policy_grants ["admin"] [] [] "o9" "k9" "root"
      "admin" [("name", "Root")] ⟨some (.map [("db", ["x"])]), none⟩ rfl rfl
    simpa using h⟩

/-- Counterexample for C4 as stated: a failing cache write fails the
caller-visible operation. On a cache-miss read with a failing self-heal
write, `authenticate_user` surfaces the escaping Redis error instead of
returning a token; `create_user` with a failing cache-entry write fails
with `DatabaseError` after the user record was written, instead of
returning the plaintext secret. -/
theorem C4_counterexample :
    (authenticate_user
        [⟨"oid1", "carol", hashKey "k1", "analyst", [], some (.str "all"), none,
          some false⟩]
        [] true "s" 0 "carol" "k1").1 =
      .error (.redisError "cache write failed") ∧
    create_user ["analyst"] [] [] true "oid2" "k2" "dan" "analyst" []
        ⟨none, none⟩ =
      (.error (.databaseError
        "An unexpected error occurred during user creation: cache write failed"),
       [⟨"oid2", "dan", hashKey "k2", "analyst", [], none, none, some false⟩],
       []) :=
  ⟨rfl, rfl⟩

/-- C4 amended: a cache-write failure DOES fail the caller-visible
operation. During cache-aside self-heal the Redis error escapes the
`except PyMongoError` handler and the read fails (cache unchanged);
during `create_user` the blanket `except Exception` converts it to a
`DatabaseError` and the operation fails, although the user record was
already written to the durable store. -/
theorem C4_cache_write_failure_fails_caller :
    (∀ (users : List UserDoc) (cache : Cache) (secret : String) (now : Nat)
       (user_id api_key : String) (d : UserDoc),
      api_key ≠ "" → cacheGet cache user_id = none →
      findByUserId users user_id = some d →
      authenticate_user users cache true secret now user_id api_key =
        (.error (.redisError "cache write failed"), cache)) ∧
    (∀ (policyStore : List String) (users : List UserDoc) (cache : Cache)
       (freshOid freshKey user_id policy : String)
       (metadata : List (String × String)) (perm : PermArg),
      policyStore.contains policy = true → findByUserId users user_id = none →
      ∃ doc : UserDoc,
        create_user policyStore users cache true freshOid freshKey user_id
            policy metadata perm =
          (.error (.databaseError
            "An unexpected error occurred during user creation: cache write failed"),
           users ++ [doc], cache)) := by
  constructor
  · intro users cache secret now user_id api_key d hk hcg hfind
    simp [authenticate_user, resolveStep, hk, hcg, hfind]
  · intro policyStore users cache freshOid freshKey user_id policy metadata
      perm hpol hdup
    have hmem : policy ∈ policyStore := by simpa using hpol
    by_cases ha : policy = "admin"
    · subst ha
      exact ⟨⟨freshOid, user_id, hashKey freshKey, "admin", metadata,
        some (.str "all"), some (.str "all"), some true⟩,
        by simp [create_user, hmem, hdup]⟩
    · exact ⟨⟨freshOid, user_id, hashKey freshKey, policy, metadata,
        perm.read, perm.write, some false⟩,
        by simp [create_user, hmem, hdup, ha]⟩

/-- Witness for amended C4 at the concrete states of the counterexample. -/
theorem C4_cache_write_failure_witness :
    (("k1" : String) ≠ "" ∧
      cacheGet [] "carol" = none ∧
      findByUserId
        [⟨"oid1", "carol", hashKey "k1", "analyst", [], some (.str "all"), none,
          some false⟩] "carol" =
        some ⟨"oid1", "carol", hashKey "k1", "analyst", [], some (.str "all"),
          none, some false⟩) ∧
    authenticate_user
        [⟨"oid1", "carol", hashKey "k1", "analyst", [], some (.str "all"), none,
          some false⟩]
        [] true "s" 0 "carol" "k1" =
      (.error (.redisError "cache write failed"), []) ∧
    (∃ doc : UserDoc,
      create_user ["analyst"] [] [] true "oid2" "k2" "dan" "analyst" []
          ⟨none, none⟩ =
        (.error (.databaseError
          "An unexpected error occurred during user creation: cache write failed"),
         [] ++ [doc], [])) :=
  ⟨⟨by decide, rfl, rfl⟩,
   C4_cache_write_failure_fails_caller.1 _ [] "s" 0 "carol" "k1" _
     (by decide) rfl rfl,
   C4_cache_write_failure_fails_caller.2 ["analyst"] [] [] "oid2" "k2" "dan"
     "analyst" [] ⟨none, none⟩ rfl rfl⟩

/-- Updating via `update_one` on the first match commutes with `find_one`: after
updating, looking the user up finds the updated document. -/
theorem findByUserId_updateFirst (users : List UserDoc) (uid : String)
    (u : UpdateSet) (old : UserDoc) (h : findByUserId users uid = some old) :
    findByUserId (updateFirst users uid u) uid = some (applyUpdates old u) := by
  induction users with
  | nil => simp [findByUserId] at h
  | cons d rest ih =>
    unfold findByUserId at h ⊢
    unfold updateFirst
    rw [List.find?_cons] at h
    by_cases hd : (d.user_id == uid) = true
    · rw [hd] at h
      simp only at h
      cases h
      rw [if_pos hd, List.find?_cons]
      have h2 : ((applyUpdates old u).user_id == uid) = true := by
        simpa [applyUpdates] using hd
      rw [h2]
    · have hd2 : (d.user_id == uid) = false := by simpa using hd
      rw [hd2] at h
      simp only at h
      rw [if_neg hd, List.find?_cons, hd2]
      simp only
      exact ih h

/-- When the call does not switch the role to admin and the supplied read
value is falsy, the `updates` dict carries no read key. -/
theorem buildUpdates_read_none (old : UserDoc) (policy : String)
    (perm : PermArg) (g : GrantVal)
    (hpol : policy = "" ∨ policy = old.role ∨ policy ≠ "admin")
    (hr : perm.read = some g) (hg : g.truthy = false) :
    (buildUpdates old policy perm).read = none := by
  unfold buildUpdates
  rw [hr]
  simp only [hg, Bool.false_eq_true, if_false]
  have hu1 : (if policy ≠ "" ∧ policy ≠ old.role then
      if policy = "admin" then
        (⟨some policy, some (.str "all"), some (.str "all"), some true⟩ : UpdateSet)
      else if old.role = "admin" then ⟨some policy, none, none, some false⟩
      else ⟨some policy, none, none, none⟩
    else ⟨none, none, none, none⟩ : UpdateSet).read = none := by
    split_ifs with h1 h2 h3
    · rcases hpol with h | h | h
      · exact absurd h h1.1
      · exact absurd h h1.2
      · exact absurd h2 h
    · rfl
    · rfl
    · rfl
  cases hw : perm.write with
  | none => simpa using hu1
  | some gw =>
    by_cases hgw : gw.truthy = true
    · simpa [hgw] using hu1
    · simp only [Bool.not_eq_true] at hgw
      simpa [hgw] using hu1

/-- When the call does not switch the role to admin and the supplied
write value is falsy, the `updates` dict carries no write key. -/
theorem buildUpdates_write_none (old : UserDoc) (policy : String)
    (perm : PermArg) (g : GrantVal)
    (hpol : policy = "" ∨ policy = old.role ∨ policy ≠ "admin")
    (hw : perm.write = some g) (hg : g.truthy = false) :
    (buildUpdates old policy perm).write = none := by
  unfold buildUpdates
  rw [hw]
  simp only [hg, Bool.false_eq_true, if_false]
  have hu1 : (if policy ≠ "" ∧ policy ≠ old.role then
      if policy = "admin" then
        (⟨some policy, some (.str "all"), some (.str "all"), some true⟩ : UpdateSet)
      else if old.role = "admin" then ⟨some policy, none, none, some false⟩
      else ⟨some policy, none, none, none⟩
    else ⟨none, none, none, none⟩ : UpdateSet).write = none := by
    split_ifs with h1 h2 h3
    · rcases hpol with h | h | h
      · exact absurd h h1.1
      · exact absurd h h1.2
      · exact absurd h2 h
    · rfl
    · rfl
    · rfl
  cases hr : perm.read with
  | none => simpa using hu1
  | some gr =>
    by_cases hgr : gr.truthy = true
    · simpa [hgr] using hu1
    · simp only [Bool.not_eq_true] at hgr
      simpa [hgr] using hu1

/-- Counterexample for C10 as stated: `update_user("dave", policy="admin",
permissions={"read": {}})` supplies a falsy read value, yet the stored
read axis changes to "all" (the admin switch forces both axes). -/
theorem C10_counterexample :
    (findByUserId
      (update_user
        [⟨"o1", "dave", "h1", "analyst", [],
          some (.map [("sales", ["orders"])]), none, some false⟩]
        "dave" "admin" ⟨some (.map []), none⟩).2 "dave").map UserDoc.read =
      some (some (.str "all")) ∧
    GrantVal.truthy (.map []) = false ∧
    some (GrantVal.str "all") ≠ some (GrantVal.map [("sales", ["orders"])]) :=
  ⟨rfl, rfl, by decide⟩

/-- C10 amended: `update_user` overwrites a read/write axis from the
permissions argument only when the supplied value is truthy; a falsy
value leaves that axis of the stored record unchanged — unless the same
call also switches the role to admin, which forces both axes to "all". -/
theorem C10_falsy_axis_unchanged
    (users : List UserDoc) (user_id policy : String) (perm : PermArg)
    (old : UserDoc) (hold : findByUserId users user_id = some old)
    (hpol : policy = "" ∨ policy = old.role ∨ policy ≠ "admin") :
    (∀ g, perm.read = some g → g.truthy = false →
      (findByUserId (update_user users user_id policy perm).2 user_id).map
        UserDoc.read = some old.read) ∧
    (∀ g, perm.write = some g → g.truthy = false →
      (findByUserId (update_user users user_id policy perm).2 user_id).map
        UserDoc.write = some old.write) := by
  constructor
  · intro g hr hg
    have hend : ¬(perm.read = none ∧ perm.write = none ∧ policy = "") := by
      intro hcon
      rw [hr] at hcon
      exact Option.noConfusion hcon.1
    simp only [update_user, hold, if_neg hend]
    rw [findByUserId_updateFirst users user_id _ old hold]
    simp [applyUpdates, buildUpdates_read_none old policy perm g hpol hr hg]
  · intro g hw hg
    have hend : ¬(perm.read = none ∧ perm.write = none ∧ policy = "") := by
      intro hcon
      rw [hw] at hcon
      exact Option.noConfusion hcon.2.1
    simp only [update_user, hold, if_neg hend]
    rw [findByUserId_updateFirst users user_id _ old hold]
    simp [applyUpdates, buildUpdates_write_none old policy perm g hpol hw hg]

/-- Witness for amended C10: a falsy read value with an unchanged role
leaves the read axis as it was. -/
theorem C10_falsy_axis_witness :
    (findByUserId
        [⟨"o1", "dave", "h1", "analyst", [],
          some (.map [("sales", ["orders"])]), none, some false⟩] "dave" =
      some ⟨"o1", "dave", "h1", "analyst", [],
        some (.map [("sales", ["orders"])]), none, some false⟩) ∧
    (("" : String) = "" ∨ ("" : String) = "analyst" ∨ ("" : String) ≠ "admin") ∧
    (findByUserId
      (update_user
        [⟨"o1", "dave", "h1", "analyst", [],
          some (.map [("sales", ["orders"])]), none, some false⟩]
        "dave" "" ⟨some (.map []), none⟩).2 "dave").map UserDoc.read =
      some (some (.map [("sales", ["orders"])])) :=
  ⟨rfl, Or.inl rfl,
    (C10_falsy_axis_unchanged
      [⟨"o1", "dave", "h1", "analyst", [],
        some (.map [("sales", ["orders"])]), none, some false⟩]
      "dave" "" ⟨some (.map []), none⟩
      ⟨"o1", "dave", "h1", "analyst", [],
        some (.map [("sales", ["orders"])]), none, some false⟩
      rfl (Or.inl rfl)).1 (.map []) rfl rfl⟩

/-- C3: token round-trip. Issuing a token embeds exactly the given
claims with a 2-hour expiry; verifying before expiry recovers exactly
those claims; verifying after expiry fails with the expired reason;
verifying with a different secret (invalid signature) fails with the
invalid-token reason; the two reasons are distinct. -/
theorem C3_token_round_trip (secret : String) (hs : secret ≠ "")
    (now now2 : Nat) (user_id : String) (info : UserInfoForJwt)
    (perms : List (String × GrantVal)) :
    create_jwt secret now user_id info perms =
      .ok (jwtEncode secret
        ⟨user_id, info.role, info.name, info.dept, perms, now + 7200⟩) ∧
    (now2 < now + 7200 →
      authorize_user secret now2 (jwtEncode secret
          ⟨user_id, info.role, info.name, info.dept, perms, now + 7200⟩) =
        .ok ⟨user_id, info.role, info.name, info.dept, perms, now + 7200⟩) ∧
    (now + 7200 ≤ now2 →
      authorize_user secret now2 (jwtEncode secret
          ⟨user_id, info.role, info.name, info.dept, perms, now + 7200⟩) =
        .error (.authenticationError "Token has expired.")) ∧
    (∀ secret2, secret2 ≠ "" → secret2 ≠ secret →
      authorize_user secret2 now2 (jwtEncode secret
          ⟨user_id, info.role, info.name, info.dept, perms, now + 7200⟩) =
        .error (.authenticationError
          "Token is invalid: Signature verification failed")) ∧
    ("Token has expired." : String) ≠
      "Token is invalid: Signature verification failed" := by
  refine ⟨?_, ?_, ?_, ?_, by decide⟩
  · simp [create_jwt, hs]
  · intro hlt
    simp [authorize_user, jwtDecode, jwtEncode, hs, Nat.not_le.mpr hlt]
  · intro hle
    simp [authorize_user, jwtDecode, jwtEncode, hs, hle]
  · intro secret2 hs2 hne
    simp [authorize_user, jwtDecode, jwtEncode, hs2, hne, Ne.symm hne]

/-- Witness for C3: a concrete token verified one hour in (recovering the
claims) and at the expiry instant (failing as expired). -/
theorem C3_token_round_trip_witness :
    ("s" : String) ≠ "" ∧
    authorize_user "s" 3600 (jwtEncode "s"
        ⟨"alice", "analyst", "Alice", "sales", [("read", .str "all")], 7200⟩) =
      .ok ⟨"alice", "analyst", "Alice", "sales", [("read", .str "all")], 7200⟩ ∧
    authorize_user "s" 7200 (jwtEncode "s"
        ⟨"alice", "analyst", "Alice", "sales", [("read", .str "all")], 7200⟩) =
      .error (.authenticationError "Token has expired.") :=
  ⟨by decide,
   (C3_token_round_trip "s" (by decide) 0 3600 "alice"
      ⟨"analyst", "Alice", "sales"⟩ [("read", .str "all")]).2.1 (by norm_num),
   (C3_token_round_trip "s" (by decide) 0 7200 "alice"
      ⟨"analyst", "Alice", "sales"⟩ [("read", .str "all")]).2.2.1 (by norm_num)⟩

/-- A successful credential-resolution step yields exactly the
`resolveUserData` projection. -/
theorem resolveStep_ok_resolveUserData (users : List UserDoc) (cache : Cache)
    (hf : Bool) (uid : String) (ud : UserData) (cache2 : Cache)
    (h : resolveStep users cache hf uid = .ok (ud, cache2)) :
    resolveUserData users cache uid = some ud := by
  unfold resolveStep at h
  unfold resolveUserData
  cases hcg : cacheGet cache uid with
  | some e =>
    rw [hcg] at h
    simp only [Except.ok.injEq, Prod.mk.injEq] at h
    simp [h.1]
  | none =>
    rw [hcg] at h
    cases hfu : findByUserId users uid with
    | none =>
      rw [hfu] at h
      exact absurd h (by simp)
    | some d =>
      rw [hfu] at h
      cases hf with
      | true => simp at h
      | false =>
        simp only [if_false, Bool.false_eq_true, Except.ok.injEq,
          Prod.mk.injEq] at h
        simp [hfu, h.1]

/-- Conversely, a resolvable credential makes the resolution step succeed
(with no cache-write fault injected). -/
theorem resolveStep_of_resolveUserData (users : List UserDoc) (cache : Cache)
    (uid : String) (ud : UserData)
    (h : resolveUserData users cache uid = some ud) :
    ∃ cache2, resolveStep users cache false uid = .ok (ud, cache2) := by
  unfold resolveUserData at h
  unfold resolveStep
  cases hcg : cacheGet cache uid with
  | some e =>
    rw [hcg] at h
    simp only [Option.some.injEq] at h
    exact ⟨cache, by simp [h]⟩
  | none =>
    rw [hcg] at h
    cases hfu : findByUserId users uid with
    | none =>
      rw [hfu] at h
      exact absurd h (by simp)
    | some d =>
      rw [hfu] at h
      simp only [Option.some.injEq] at h
      exact ⟨hsetUser cache uid
        ⟨some d.api_key_hash, d.oid, d.role,
          (d.metadata.lookup "name").getD "",
          (d.metadata.lookup "department").getD ""⟩, by simp [h]⟩

/-- C2: whenever token issuance succeeds, the permission set embedded in
the token is exactly the grant projection of the durable-store document
found by the resolved role identifier (the cache holds no grants at
all, so grants can only come from the store); and if the credentials
resolve and the key verifies but the role/grant record is missing from
the store, issuance fails with an authentication-kind error. -/
theorem C2_grants_fetched_from_store :
    (∀ (users : List UserDoc) (cache : Cache) (hsetFails : Bool)
       (secret : String) (now : Nat) (user_id api_key : String)
       (tok : Token) (cache2 : Cache),
      authenticate_user users cache hsetFails secret now user_id api_key =
        (.ok tok, cache2) →
      ∃ ud d, resolveUserData users cache user_id = some ud ∧
        findByOid users ud.role_id = some d ∧
        tok.payload.permissions = permsOf d) ∧
    (∀ (users : List UserDoc) (cache : Cache) (secret : String) (now : Nat)
       (user_id api_key : String) (ud : UserData),
      api_key ≠ "" →
      resolveUserData users cache user_id = some ud →
      ud.api_key_hash.getD "" ≠ "" →
      verify_key api_key (ud.api_key_hash.getD "") = true →
      ud.role_id ≠ "" →
      findByOid users ud.role_id = none →
      (authenticate_user users cache false secret now user_id api_key).1 =
        .error (.authenticationError
          ("Could not find permissions for user " ++ user_id ++ "."))) := by
  constructor
  · intro users cache hf secret now uid key tok cache2 heq
    unfold authenticate_user at heq
    by_cases hk : key = ""
    · rw [if_pos hk] at heq
      exact absurd heq (by simp)
    · rw [if_neg hk] at heq
      cases hres : resolveStep users cache hf uid with
      | error e =>
        rw [hres] at heq
        exact absurd heq (by simp)
      | ok p =>
        obtain ⟨ud, c2⟩ := p
        rw [hres] at heq
        simp only at heq
        by_cases h1 : ud.api_key_hash.getD "" = ""
        · rw [if_pos h1] at heq
          exact absurd heq (by simp)
        · rw [if_neg h1] at heq
          by_cases h2 : (!verify_key key (ud.api_key_hash.getD "")) = true
          · rw [if_pos h2] at heq
            exact absurd heq (by simp)
          · rw [if_neg h2] at heq
            by_cases h3 : ud.role_id = ""
            · rw [if_pos h3] at heq
              exact absurd heq (by simp)
            · rw [if_neg h3] at heq
              cases hfo : findByOid users ud.role_id with
              | none =>
                rw [hfo] at heq
                exact absurd heq (by simp)
              | some d =>
                rw [hfo] at heq
                simp only at heq
                by_cases h4 : (permsOf d).isEmpty = true
                · rw [if_pos h4] at heq
                  exact absurd heq (by simp)
                · rw [if_neg h4] at heq
                  by_cases hs : secret = ""
                  · simp [create_jwt, hs] at heq
                  · unfold create_jwt at heq
                    rw [if_neg hs] at heq
                    simp only at heq
                    have htok := congrArg Prod.fst heq
                    simp only [Except.ok.injEq] at htok
                    refine ⟨ud, d,
                      resolveStep_ok_resolveUserData users cache hf uid ud c2
                        hres, hfo, ?_⟩
                    rw [← htok]
                    rfl
  · intro users cache secret now uid key ud hk hres h1 h2 h3 hfo
    obtain ⟨cache2, hstep⟩ := resolveStep_of_resolveUserData users cache uid
      ud hres
    unfold authenticate_user
    rw [if_neg hk, hstep]
    simp only
    rw [if_neg h1, if_neg (by simp [h2]), if_neg h3, hfo]

/-- Witness for C2: a concrete state where the cache entry for bob holds a
stale role string while the store (found via the cached role id) holds
the grants; the issued token embeds exactly the store grants. The second
part: a cache entry whose role id points at no store document makes
issuance fail with an authentication error. -/
theorem C2_grants_fetched_witness :
    (authenticate_user
        [⟨"o1", "bob", hashKey "k", "analyst", [],
          some (.map [("sales", ["orders"])]), none, some false⟩]
        [("bob", ⟨some (hashKey "k"), "o1", "stale-role", "Bob", "sales"⟩)]
        false "s" 0 "bob" "k" =
      ((authenticate_user
        [⟨"o1", "bob", hashKey "k", "analyst", [],
          some (.map [("sales", ["orders"])]), none, some false⟩]
        [("bob", ⟨some (hashKey "k"), "o1", "stale-role", "Bob", "sales"⟩)]
        false "s" 0 "bob" "k").1,
       [("bob", ⟨some (hashKey "k"), "o1", "stale-role", "Bob", "sales"⟩)])) ∧
    (∃ ud d,
      resolveUserData
        [⟨"o1", "bob", hashKey "k", "analyst", [],
          some (.map [("sales", ["orders"])]), none, some false⟩]
        [("bob", ⟨some (hashKey "k"), "o1", "stale-role", "Bob", "sales"⟩)]
        "bob" = some ud ∧
      findByOid
        [⟨"o1", "bob", hashKey "k", "analyst", [],
          some (.map [("sales", ["orders"])]), none, some false⟩]
        ud.role_id = some d ∧
      (jwtEncode "s" ⟨"bob", "stale-role", "Bob", "sales",
        [("read", .map [("sales", ["orders"])]), ("user_management",
          .boolVal false)], 7200⟩).payload.permissions = permsOf d) ∧
    (authenticate_user
        [⟨"o1", "bob", hashKey "k", "analyst", [],
          some (.map [("sales", ["orders"])]), none, some false⟩]
        [("bob", ⟨some (hashKey "k"), "o9", "analyst", "Bob", "sales"⟩)]
        false "s" 0 "bob" "k").1 =
      .error (.authenticationError "Could not find permissions for user bob.") := by
  refine ⟨rfl, ?_, ?_⟩
  · exact C2_grants_fetched_from_store.1
      [⟨"o1", "bob", hashKey "k", "analyst", [],
        some (.map [("sales", ["orders"])]), none, some false⟩]
      [("bob", ⟨some (hashKey "k"), "o1", "stale-role", "Bob", "sales"⟩)]
      false "s" 0 "bob" "k"
      (jwtEncode "s" ⟨"bob", "stale-role", "Bob", "sales",
        [("read", .map [("sales", ["orders"])]), ("user_management",
          .boolVal false)], 7200⟩)
      [("bob", ⟨some (hashKey "k"), "o1", "stale-role", "Bob", "sales"⟩)]
      rfl
  · exact C2_grants_fetched_from_store.2
      [⟨"o1", "bob", hashKey "k", "analyst", [],
        some (.map [("sales", ["orders"])]), none, some false⟩]
      [("bob", ⟨some (hashKey "k"), "o9", "analyst", "Bob", "sales"⟩)]
      "s" 0 "bob" "k"
      ⟨some (hashKey "k"), "o9", "analyst", "Bob", "sales"⟩
      (by decide) rfl (by decide) (by decide) (by decide) rfl

end Orb
